import Mathlib

/-!
Verification development for `scholar.js`: a script that fetches a
researcher's publication list from the Semantic Scholar API, filters it
to the last few years, sorts it, groups it by year and renders it as
HTML, with a static fallback link to Google Scholar when the fetch
fails.

The JavaScript source is shallowly embedded below.  Pure computations
(escaping, filtering, sorting, grouping, HTML construction) become Lean
functions; the network is modelled as an explicit oracle (`Network`)
mapping the initial request and each follow-up offset to a result; the
`while` loop of `fetchRemainingPapers` receives an explicit fuel
argument (the loop can diverge in JS if the server keeps returning
cursors, and every theorem below holds for every fuel value).
-/

/-- An author entry of a publication record, as returned by the API.
The `name` field is optional because the code defaults it (`a.name || ''`). -/
structure Author where
  name : Option String
deriving DecidableEq

/-- A publication record, as returned by the API: all fields the code
reads are optional (`externalIds` is requested but never read, so it is
omitted).  Years and citation counts are natural numbers. -/
structure Paper where
  title : Option String
  year : Option Nat
  venue : Option String
  citationCount : Option Nat
  url : Option String
  authors : List Author
deriving DecidableEq

/-- `RECENT_YEAR_COUNT = 4` — show papers from the last N years. -/
def RECENT_YEAR_COUNT : Nat := 4

/-- `GOOGLE_SCHOLAR_URL` — the static fallback profile link. -/
def GOOGLE_SCHOLAR_URL : String :=
  "https://scholar.google.com/citations?user=-qhGYywAAAAJ&hl=en"

/-- JavaScript truthiness of an optional number: `undefined`, `null`
and `0` are falsy, every other number is truthy.  Used for
`p.year && ...`, `papersData.next`, `data.next || null`. -/
def truthyNat : Option Nat → Bool
  | none => false
  | some n => n != 0

/-- Escape one character the way the DOM serialises text content:
`&`, `<` and `>` become entities, everything else is unchanged. -/
def escapeChar (c : Char) : List Char :=
  if c = '&' then ['&', 'a', 'm', 'p', ';']
  else if c = '<' then ['&', 'l', 't', ';']
  else if c = '>' then ['&', 'g', 't', ';']
  else [c]

/-- Escape a character list (the body of `escapeHtml`). -/
def escapeList : List Char → List Char
  | [] => []
  | c :: cs => escapeChar c ++ escapeList cs

/-- `escapeHtml(str)` — the DOM-based escaping utility
(`div.textContent = str; return div.innerHTML`), which escapes exactly
`&`, `<` and `>`. -/
def escapeHtml (s : String) : String :=
  ⟨escapeList s.data⟩

/-- `listStartsWith needle hay` : does `hay` start with `needle`? -/
def listStartsWith : List Char → List Char → Bool
  | [], _ => true
  | _ :: _, [] => false
  | a :: as, b :: bs => a == b && listStartsWith as bs

/-- `listHasSub needle hay` : does `needle` occur as a contiguous
substring of `hay`?  Used to model the regex test and to state the
markup-injection properties. -/
def listHasSub (needle : List Char) : List Char → Bool
  | [] => needle.isEmpty
  | c :: cs => listStartsWith needle (c :: cs) || listHasSub needle cs

/-- `/razaviyayn/i.test(name)` — case-insensitive substring match. -/
def razaviyaynTest (name : String) : Bool :=
  listHasSub "razaviyayn".data name.toLower.data

/-- The title text inserted for a paper:
`escapeHtml(paper.title || 'Untitled')`. -/
def titleTextOf (p : Paper) : String :=
  escapeHtml (p.title.getD "Untitled")

/-- The link target inserted for a paper: `paper.url || '#'`
(no escaping). -/
def urlOf (p : Paper) : String :=
  p.url.getD "#"

/-- The venue text inserted for a paper: `escapeHtml(paper.venue || '')`. -/
def venueTextOf (p : Paper) : String :=
  escapeHtml (p.venue.getD "")

/-- One author's fragment: the escaped name, wrapped in `<strong>`
when it matches `/razaviyayn/i`. -/
def authorFragment (a : Author) : String :=
  let name := escapeHtml (a.name.getD "")
  if razaviyaynTest name then "<strong>" ++ name ++ "</strong>" else name

/-- The author list string: fragments joined with `', '`. -/
def authorsTextOf (p : Paper) : String :=
  String.intercalate ", " (p.authors.map authorFragment)

/-- Everything of the paper element's markup after the href value:
closing quote and attributes of the anchor, title, optional author and
venue paragraphs, closing tags. -/
def paperRest (p : Paper) : String :=
  "\" class=\"pub-title\" target=\"_blank\" rel=\"noopener\">"
    ++ (titleTextOf p
    ++ ("</a>\n            "
    ++ ((if authorsTextOf p ≠ "" then
          "<p class=\"pub-authors\">" ++ authorsTextOf p ++ "</p>"
        else "")
    ++ ("\n            "
    ++ ((if venueTextOf p ≠ "" then
          "<p class=\"pub-venue\">" ++ venueTextOf p ++ "</p>"
        else "")
    ++ "\n        </div>\n    ")))))

/-- `createPaperElement(paper)` — modelled as the `innerHTML` string
assigned to the created `div.publication-item`. -/
def createPaperElement (p : Paper) : String :=
  "\n        <div class=\"pub-main\">\n            <a href=\""
    ++ (urlOf p ++ paperRest p)

/-- The key a paper is grouped under: `paper.year || 'Undated'`
(a missing or zero year falls into the undated bucket). -/
inductive YearKey where
  | year (n : Nat)
  | undated
deriving DecidableEq

/-- `paper.year || 'Undated'` as a `YearKey`. -/
def keyOf (p : Paper) : YearKey :=
  match p.year with
  | some n => if n ≠ 0 then YearKey.year n else YearKey.undated
  | none => YearKey.undated

/-- The header text of a year bucket (what `header.textContent = year`
displays). -/
def headerOf : YearKey → String
  | YearKey.year n => toString n
  | YearKey.undated => "Undated"

/-- Insert a paper into the grouped association list: append to the
bucket of its key if present, otherwise add a new bucket at the end
(object property insertion order). -/
def addToGroup (k : YearKey) (p : Paper) :
    List (YearKey × List Paper) → List (YearKey × List Paper)
  | [] => [(k, [p])]
  | (k2, ps) :: rest =>
    if k2 = k then (k2, ps ++ [p]) :: rest else (k2, ps) :: addToGroup k p rest

/-- The loop body of `groupByYear`, folding papers into the accumulator. -/
def groupGo (acc : List (YearKey × List Paper)) :
    List Paper → List (YearKey × List Paper)
  | [] => acc
  | p :: ps => groupGo (addToGroup (keyOf p) p acc) ps

/-- `groupByYear(papers)` — partition papers into year buckets, buckets
in first-occurrence order, papers within a bucket in input order. -/
def groupByYear (papers : List Paper) : List (YearKey × List Paper) :=
  groupGo [] papers

/-- The sort comparator of `renderPublications` as a relation:
`a` may precede `b` iff `comparator(a,b) <= 0`, i.e. descending year
(missing treated as 0), then descending citation count (missing 0). -/
def paperLE (a b : Paper) : Prop :=
  b.year.getD 0 < a.year.getD 0 ∨
    (a.year.getD 0 = b.year.getD 0 ∧ b.citationCount.getD 0 ≤ a.citationCount.getD 0)

instance : DecidableRel paperLE := fun a b => by
  unfold paperLE; infer_instance

instance : IsTotal Paper paperLE where
  total a b := by
    unfold paperLE
    rcases Nat.lt_trichotomy (a.year.getD 0) (b.year.getD 0) with h | h | h
    · exact Or.inr (Or.inl h)
    · rcases Nat.le_total (a.citationCount.getD 0) (b.citationCount.getD 0) with h2 | h2
      · exact Or.inr (Or.inr ⟨h.symm, h2⟩)
      · exact Or.inl (Or.inr ⟨h, h2⟩)
    · exact Or.inl (Or.inl h)

instance : IsTrans Paper paperLE where
  trans a b c hab hbc := by
    unfold paperLE at *
    rcases hab with h1 | ⟨h1, h1c⟩ <;> rcases hbc with h2 | ⟨h2, h2c⟩
    · exact Or.inl (h2.trans h1)
    · exact Or.inl (h2 ▸ h1)
    · exact Or.inl (h1 ▸ h2)
    · exact Or.inr ⟨h1.trans h2, Nat.le_trans h2c h1c⟩

/-- The sort step of `renderPublications`: `papers.sort(comparator)`. -/
def sortPapers (papers : List Paper) : List Paper :=
  List.insertionSort paperLE papers

/-- The bucket-ordering comparator of `renderGroupedPapers` as a
relation on keys: `a` may precede `b` iff `'Undated'` sorts last and
numeric keys sort descending. -/
def keyLE (a b : YearKey) : Prop :=
  match a, b with
  | _, YearKey.undated => True
  | YearKey.undated, YearKey.year _ => False
  | YearKey.year m, YearKey.year n => n ≤ m

instance : DecidableRel keyLE := fun a b => by
  unfold keyLE
  rcases a with m | _ <;> rcases b with n | _ <;> infer_instance

instance : IsTotal YearKey keyLE where
  total a b := by
    unfold keyLE
    rcases a with m | _ <;> rcases b with n | _ <;> simp
    exact Nat.le_total n m

instance : IsTrans YearKey keyLE where
  trans a b c hab hbc := by
    unfold keyLE at *
    rcases a with m | _ <;> rcases b with n | _ <;> rcases c with k | _ <;> simp_all
    exact Nat.le_trans hbc hab

/-- The bucket comparator lifted to key-bucket pairs. -/
def groupLE (a b : YearKey × List Paper) : Prop :=
  keyLE a.1 b.1

instance : DecidableRel groupLE := fun a b => by
  unfold groupLE; infer_instance

instance : IsTotal (YearKey × List Paper) groupLE where
  total a b := IsTotal.total (r := keyLE) a.1 b.1

instance : IsTrans (YearKey × List Paper) groupLE where
  trans a b c hab hbc := IsTrans.trans (r := keyLE) a.1 b.1 c.1 hab hbc

/-- Order the buckets: `Object.keys(grouped).sort(comparator)`, keeping
each key with its bucket. -/
def sortGroups (grouped : List (YearKey × List Paper)) :
    List (YearKey × List Paper) :=
  List.insertionSort groupLE grouped

/-- A rendered year section: the `h3.year-header` text and the
`innerHTML` of each publication item appended to it. -/
structure YearSection where
  header : String
  items : List String
deriving DecidableEq

/-- The placeholder markup of the empty case. -/
def noResultsHtml : String :=
  "<p style=\"text-align:center; color: var(--text-light); padding: 32px 0;\">No publications found matching your search.</p>"

/-- The tree `renderGroupedPapers` attaches to `#publications-list`:
either the single no-results placeholder node, or one section per year
bucket. -/
inductive RenderedView where
  | placeholder (html : String)
  | yearList (sections : List YearSection)
deriving DecidableEq

/-- The section rendered for one bucket. -/
def sectionOf (g : YearKey × List Paper) : YearSection :=
  ⟨headerOf g.1, g.2.map createPaperElement⟩

/-- `renderGroupedPapers(grouped)` — sort the buckets, and render
either the no-results placeholder (no buckets) or the year sections. -/
def renderGroupedPapers (grouped : List (YearKey × List Paper)) : RenderedView :=
  let sorted := sortGroups grouped
  if sorted.isEmpty then RenderedView.placeholder noResultsHtml
  else RenderedView.yearList (sorted.map sectionOf)

/-- `renderPublications(papers)` — sort, group by year, render. -/
def renderPublications (papers : List Paper) : RenderedView :=
  renderGroupedPapers (groupByYear (sortPapers papers))

/-- The recency filter of `fetchScholarData`:
`papers.filter(p => p.year && p.year >= cutoffYear)` with
`cutoffYear = currentYear - RECENT_YEAR_COUNT + 1`. -/
def recentFilter (currentYear : Nat) (papers : List Paper) : List Paper :=
  papers.filter
    (fun p => truthyNat p.year && p.year.getD 0 ≥ currentYear - RECENT_YEAR_COUNT + 1)

/-- One page of the API response body: an optional `data` array and an
optional `next` cursor (an offset number; `0` is falsy in JS). -/
structure ApiPage where
  data : Option (List Paper)
  next : Option Nat
deriving DecidableEq

/-- The result of one `fetch`: the promise rejects (`networkError`), or
a response arrives with a status (`ok`) and a body that either parses
(`some page`) or makes `res.json()` throw (`none`). -/
inductive FetchResult where
  | networkError
  | httpResponse (ok : Bool) (body : Option ApiPage)
deriving DecidableEq

/-- The network oracle: the outcome of the initial request and of the
follow-up request at each offset. -/
structure Network where
  initial : FetchResult
  page : Nat → FetchResult

/-- `fetchRemainingPapers(offset)` — follow cursors, appending each
page's records; any failure (`break`) returns what was accumulated so
far, which in this recursive form is the empty contribution of the
failing tail.  `fuel` bounds the number of loop iterations. -/
def fetchRemainingPapers (net : Network) : Nat → Nat → List Paper
  | 0, _ => []
  | fuel + 1, offset =>
    match net.page offset with
    | FetchResult.networkError => []
    | FetchResult.httpResponse ok body =>
      if ok then
        match body with
        | none => []
        | some page =>
          page.data.getD [] ++
            match page.next with
            | some n =>
              if n ≠ 0 then fetchRemainingPapers net fuel n else []
            | none => []
      else []

/-- The fetching part of `fetchScholarData`: `none` models the `catch`
path (a thrown `RequestError`), `some papers` the full accumulated
record list handed to the filter. -/
def fetchAllPapers (net : Network) (fuel : Nat) : Option (List Paper) :=
  match net.initial with
  | FetchResult.networkError => none
  | FetchResult.httpResponse ok body =>
    if ok then
      match body with
      | none => none
      | some page =>
        let papers := page.data.getD []
        match page.next with
        | some n =>
          if n ≠ 0 then some (papers ++ fetchRemainingPapers net fuel n)
          else some papers
        | none => some papers
    else none

/-- The markup `renderError` assigns to the container: the static
fallback with the Google Scholar link. -/
def renderErrorHtml : String :=
  "\n            <div class=\"pub-error\">\n                <p>Unable to load publications automatically. Please visit Google Scholar for the full list.</p>\n                <a href=\""
    ++ (GOOGLE_SCHOLAR_URL
    ++ "\" target=\"_blank\" rel=\"noopener\" class=\"btn btn-primary\">\n                    View on Google Scholar\n                </a>\n            </div>\n        ")

/-- What `fetchScholarData` leaves in the publications container:
the rendered view on success, the fallback markup on failure. -/
inductive Outcome where
  | view (v : RenderedView)
  | fallback (html : String)
deriving DecidableEq

/-- `fetchScholarData()` — fetch all pages, filter to recent years,
render; on any fetch failure render the error fallback instead. -/
def fetchScholarData (net : Network) (fuel currentYear : Nat) : Outcome :=
  match fetchAllPapers net fuel with
  | none => Outcome.fallback renderErrorHtml
  | some papers =>
    Outcome.view (renderPublications (recentFilter currentYear papers))

/-! ### Concrete inputs used in the scenario parts of the theorems -/

/-- A record with a given year and every other field missing. -/
def yearOnly (n : Nat) : Paper :=
  ⟨none, some n, none, none, none, []⟩

/-- A record with no year at all. -/
def undatedPaper : Paper :=
  ⟨none, none, none, none, none, []⟩

/-- The spec's injection example: a record whose title is
`<script>x</script>`. -/
def scriptPaper : Paper :=
  ⟨some "<script>x</script>", some 2024, none, none, none, []⟩

/-- A record carrying a markup-injecting `url` field. -/
def evilUrlPaper : Paper :=
  ⟨none, some 2024, none, none, some "\"><script>x</script>", []⟩

/-- The year set of the spec's recency-filter scenario. -/
def c4Papers : List Paper :=
  [yearOnly 2021, yearOnly 2022, yearOnly 2023, yearOnly 2020]

/-- First record of the pagination scenario. -/
def paperA : Paper :=
  ⟨some "A", some 2023, none, some 3, none, []⟩

/-- Second record of the pagination scenario. -/
def paperB : Paper :=
  ⟨some "B", some 2022, none, some 1, none, []⟩

/-- The pagination scenario network: page 1 succeeds with two records
and a cursor, every follow-up request fails. -/
def pageFailNet : Network :=
  ⟨FetchResult.httpResponse true (some ⟨some [paperA, paperB], some 500⟩),
    fun _ => FetchResult.networkError⟩

/-- A network whose single page holds only a record too old for the
recency window. -/
def staleNet : Network :=
  ⟨FetchResult.httpResponse true (some ⟨some [yearOnly 1990], none⟩),
    fun _ => FetchResult.networkError⟩

/-- The header texts of a rendered view, in rendered order. -/
def viewHeaders : RenderedView → List String
  | RenderedView.placeholder _ => []
  | RenderedView.yearList secs => secs.map YearSection.header

/-! ### Helper lemmas -/

lemma escapeChar_no_angle (c : Char) : '<' ∉ escapeChar c ∧ '>' ∉ escapeChar c := by
  unfold escapeChar
  split_ifs with h1 h2 h3
  · exact ⟨by decide, by decide⟩
  · exact ⟨by decide, by decide⟩
  · exact ⟨by decide, by decide⟩
  · exact ⟨fun h => h2 (List.mem_singleton.mp h).symm,
      fun h => h3 (List.mem_singleton.mp h).symm⟩

lemma escapeList_no_angle (l : List Char) :
    '<' ∉ escapeList l ∧ '>' ∉ escapeList l := by
  induction l with
  | nil => exact ⟨by simp [escapeList], by simp [escapeList]⟩
  | cons c cs ih =>
    have hc := escapeChar_no_angle c
    simp only [escapeList, List.mem_append]
    exact ⟨fun h => h.elim hc.1 ih.1, fun h => h.elim hc.2 ih.2⟩

lemma addToGroup_keys (k : YearKey) (p : Paper) (g : List (YearKey × List Paper)) :
    (addToGroup k p g).map Prod.fst =
      if k ∈ g.map Prod.fst then g.map Prod.fst else g.map Prod.fst ++ [k] := by
  induction g with
  | nil => simp [addToGroup]
  | cons hd tl ih =>
    obtain ⟨k2, ps⟩ := hd
    by_cases hk : k2 = k
    · subst hk
      simp [addToGroup]
    · by_cases hmem : k ∈ tl.map Prod.fst <;>
        simp [addToGroup, hk, ih, hmem, Ne.symm hk]

lemma addToGroup_sum (k : YearKey) (p : Paper) (g : List (YearKey × List Paper)) :
    ((addToGroup k p g).map fun x => x.2.length).sum =
      ((g.map fun x => x.2.length).sum) + 1 := by
  induction g with
  | nil => simp [addToGroup]
  | cons hd tl ih =>
    obtain ⟨k2, ps⟩ := hd
    by_cases hk : k2 = k <;> simp [addToGroup, hk, ih] <;> omega

lemma groupGo_sum (l : List Paper) : ∀ acc,
    ((groupGo acc l).map fun x => x.2.length).sum =
      ((acc.map fun x => x.2.length).sum) + l.length := by
  induction l with
  | nil => intro acc; simp [groupGo]
  | cons p ps ih =>
    intro acc
    show ((groupGo (addToGroup (keyOf p) p acc) ps).map fun x => x.2.length).sum = _
    rw [ih, addToGroup_sum]
    simp [Nat.add_assoc, Nat.add_comm 1]

lemma groupGo_keys_nodup (l : List Paper) : ∀ acc,
    (acc.map Prod.fst).Nodup → ((groupGo acc l).map Prod.fst).Nodup := by
  induction l with
  | nil => intro acc h; exact h
  | cons p ps ih =>
    intro acc h
    show ((groupGo (addToGroup (keyOf p) p acc) ps).map Prod.fst).Nodup
    apply ih
    rw [addToGroup_keys]
    split_ifs with hmem
    · exact h
    · exact ((List.perm_append_singleton _ _).nodup_iff).mpr
        (List.nodup_cons.mpr ⟨hmem, h⟩)

lemma groupByYear_keys_nodup (papers : List Paper) :
    ((groupByYear papers).map Prod.fst).Nodup :=
  groupGo_keys_nodup papers [] (by simp)

lemma groupGo_keys_sub (l : List Paper) : ∀ acc k,
    k ∈ (groupGo acc l).map Prod.fst →
      k ∈ acc.map Prod.fst ∨ ∃ p, p ∈ l ∧ keyOf p = k := by
  induction l with
  | nil => intro acc k h; exact Or.inl h
  | cons p ps ih =>
    intro acc k h
    rcases ih _ k h with h2 | ⟨q, hq, hk⟩
    · rw [addToGroup_keys] at h2
      split_ifs at h2 with hmem
      · exact Or.inl h2
      · rcases List.mem_append.mp h2 with h3 | h3
        · exact Or.inl h3
        · exact Or.inr ⟨p, List.mem_cons_self p ps, (List.mem_singleton.mp h3).symm⟩
    · exact Or.inr ⟨q, List.mem_cons_of_mem p hq, hk⟩

/-! ### Claim theorems -/

/-- C1: every piece of text content derived from an untrusted API
record — the title (defaulting to `Untitled`), each author name, and
the venue — is HTML-escaped before insertion, so the escaped fragments
contain no `<` or `>` characters; in particular a record whose title is
`<script>x</script>` renders to an element whose markup contains no
`<script` substring. -/
theorem c1_record_text_escaped :
    (∀ s : String, '<' ∉ (escapeHtml s).data ∧ '>' ∉ (escapeHtml s).data) ∧
    (∀ p : Paper, titleTextOf p = escapeHtml (p.title.getD "Untitled") ∧
      venueTextOf p = escapeHtml (p.venue.getD "") ∧
      '<' ∉ (titleTextOf p).data ∧ '<' ∉ (venueTextOf p).data) ∧
    (∀ (p : Paper) (a : Author), a ∈ p.authors →
      '<' ∉ (escapeHtml (a.name.getD "")).data) ∧
    listHasSub "<script".data (createPaperElement scriptPaper).data = false := by
  refine ⟨fun s => escapeList_no_angle s.data,
    fun p => ⟨rfl, rfl, (escapeList_no_angle _).1, (escapeList_no_angle _).1⟩,
    fun p a _ => (escapeList_no_angle _).1, by decide⟩

/-- Witness for C1 at a concrete record and author. -/
theorem c1_record_text_escaped_witness :
    '<' ∉ (escapeHtml ((Author.mk (some "A<i>")).name.getD "")).data :=
  c1_record_text_escaped.2.2.1 ⟨none, none, none, none, none, [⟨some "A<i>"⟩]⟩
    ⟨some "A<i>"⟩ (List.mem_singleton.mpr rfl)

/-- C9: the link target written into the `href` attribute is the
record's `url` field inserted verbatim and unescaped (defaulting to `#`
only when the field is missing), while title and venue are escaped; a
markup-injecting `url` therefore survives into the element markup even
though escaping it would have removed the `<script` substring. -/
theorem c9_url_inserted_verbatim :
    (∀ p : Paper, ∃ pre post, createPaperElement p = pre ++ (p.url.getD "#" ++ post)) ∧
    (∀ p : Paper, p.url = none → ∃ pre post,
      createPaperElement p = pre ++ ("#" ++ post)) ∧
    (∀ p : Paper, titleTextOf p = escapeHtml (p.title.getD "Untitled") ∧
      venueTextOf p = escapeHtml (p.venue.getD "")) ∧
    listHasSub "<script".data (createPaperElement evilUrlPaper).data = true ∧
    listHasSub "<script".data (escapeHtml "\"><script>x</script>").data = false := by
  refine ⟨fun p => ⟨"\n        <div class=\"pub-main\">\n            <a href=\"", paperRest p, rfl⟩,
    fun p h => ⟨"\n        <div class=\"pub-main\">\n            <a href=\"", paperRest p, ?_⟩,
    fun p => ⟨rfl, rfl⟩, by decide, by decide⟩
  simp [createPaperElement, urlOf, h]

/-- Witness for C9 at a record with a missing `url` field. -/
theorem c9_url_inserted_verbatim_witness :
    ∃ pre post, createPaperElement (yearOnly 5) = pre ++ ("#" ++ post) :=
  c9_url_inserted_verbatim.2.1 (yearOnly 5) rfl

/-- C4: a record is kept by the recency filter iff its year is present
and at least `currentYear - RECENT_YEAR_COUNT + 1`; with current year
2024 the cutoff is 2021, so input years 2021, 2022, 2023, 2020 produce
exactly the buckets 2023, 2022, 2021 (descending) and the 2020 record
is excluded. -/
theorem c4_recency_filter :
    (∀ (currentYear : Nat) (papers : List Paper) (p : Paper),
      p ∈ recentFilter currentYear papers ↔
        p ∈ papers ∧ ∃ y, p.year = some y ∧ currentYear - RECENT_YEAR_COUNT + 1 ≤ y) ∧
    viewHeaders (renderPublications (recentFilter 2024 c4Papers)) =
      ["2023", "2022", "2021"] := by
  constructor
  · intro currentYear papers p
    simp only [recentFilter, List.mem_filter]
    refine and_congr_right fun _ => ?_
    cases hy : p.year with
    | none => simp [truthyNat, hy]
    | some y =>
      simp only [truthyNat, hy, Option.getD_some, Bool.and_eq_true, bne_iff_ne,
        ne_eq, ge_iff_le, decide_eq_true_eq, Option.some.injEq]
      constructor
      · rintro ⟨-, h2⟩
        exact ⟨y, rfl, h2⟩
      · rintro ⟨y2, rfl, h2⟩
        exact ⟨by omega, h2⟩
  · decide

/-- C5: in the sorted output, a record with a strictly greater year
(missing years counting as 0) precedes one with a smaller year, and
among equal years a strictly greater citation count (missing counting
as 0) precedes a smaller one; order among full ties is unspecified. -/
theorem c5_sort_order (papers : List Paper)
    (i j : Fin (sortPapers papers).length)
    (h : ((sortPapers papers).get j).year.getD 0 <
          ((sortPapers papers).get i).year.getD 0 ∨
        (((sortPapers papers).get i).year.getD 0 =
            ((sortPapers papers).get j).year.getD 0 ∧
          ((sortPapers papers).get j).citationCount.getD 0 <
            ((sortPapers papers).get i).citationCount.getD 0)) :
    i < j := by
  by_contra hij
  have hji : j ≤ i := not_lt.mp hij
  rcases lt_or_eq_of_le hji with hlt | heq
  · have hle : paperLE ((sortPapers papers).get j) ((sortPapers papers).get i) :=
      (List.sorted_insertionSort paperLE papers).rel_get_of_lt hlt
    unfold paperLE at hle
    rcases h with h1 | ⟨h1, h2⟩ <;> rcases hle with h3 | ⟨h3, h4⟩ <;> omega
  · subst heq
    rcases h with h1 | ⟨h1, h2⟩ <;> omega

/-- Witness for C5: in the sorted pair the 2023 record precedes the
2021 record. -/
theorem c5_sort_order_witness :
    (⟨0, by decide⟩ : Fin (sortPapers [yearOnly 2021, yearOnly 2023]).length) <
      ⟨1, by decide⟩ :=
  c5_sort_order [yearOnly 2021, yearOnly 2023] ⟨0, by decide⟩ ⟨1, by decide⟩
    (by decide)

/-- C6: after bucket ordering, for any two buckets in rendered order
either both are numeric years in strictly descending order, or the
later one is the `Undated` bucket and the earlier one is numeric — so
numeric years descend and `Undated` comes after every numeric bucket,
for every input list. -/
theorem c6_bucket_order (papers : List Paper) :
    List.Pairwise
      (fun a b : YearKey × List Paper =>
        (a.1 ≠ YearKey.undated ∧ b.1 = YearKey.undated) ∨
          ∃ m n, a.1 = YearKey.year m ∧ b.1 = YearKey.year n ∧ n < m)
      (sortGroups (groupByYear papers)) := by
  have hs : List.Pairwise groupLE (sortGroups (groupByYear papers)) :=
    List.sorted_insertionSort groupLE (groupByYear papers)
  have hperm : List.Perm (sortGroups (groupByYear papers)) (groupByYear papers) :=
    List.perm_insertionSort groupLE (groupByYear papers)
  have hnd : ((sortGroups (groupByYear papers)).map Prod.fst).Nodup :=
    ((hperm.map Prod.fst).nodup_iff).mpr (groupByYear_keys_nodup papers)
  have hne : List.Pairwise (fun a b : YearKey × List Paper => a.1 ≠ b.1)
      (sortGroups (groupByYear papers)) := List.pairwise_map.mp hnd
  refine (hs.and hne).imp ?_
  rintro ⟨ka, psa⟩ ⟨kb, psb⟩ ⟨hle, hne2⟩
  unfold groupLE keyLE at hle
  rcases ka with m | _ <;> rcases kb with n | _
  · have hle2 : n ≤ m := hle
    have hne3 : YearKey.year m ≠ YearKey.year n := hne2
    have hmn : m ≠ n := fun h => hne3 (by rw [h])
    exact Or.inr ⟨m, n, rfl, rfl, by omega⟩
  · exact Or.inl ⟨by simp, rfl⟩
  · exact hle.elim
  · exact (hne2 rfl).elim

/-- C7: grouping is lossless — for every input list the bucket sizes
sum to the input length, and in particular the buckets of the rendered
pipeline sum to the filtered input count. -/
theorem c7_grouping_lossless :
    (∀ l : List Paper,
      ((groupByYear l).map fun g => g.2.length).sum = l.length) ∧
    (∀ (currentYear : Nat) (papers : List Paper),
      ((groupByYear (sortPapers (recentFilter currentYear papers))).map
          fun g => g.2.length).sum =
        (recentFilter currentYear papers).length) := by
  have h1 : ∀ l : List Paper,
      ((groupByYear l).map fun g => g.2.length).sum = l.length := by
    intro l
    rw [groupByYear, groupGo_sum]
    simp
  refine ⟨h1, fun currentYear papers => ?_⟩
  rw [h1]
  exact (List.perm_insertionSort paperLE (recentFilter currentYear papers)).length_eq

/-- C2: the whole fetch fails exactly when the initial attempt does not
yield a success-status response with a parseable body (rejected fetch,
non-success status, or unparseable body), and on that failure the
container receives the static fallback markup, which carries the Google
Scholar profile link, instead of any publication list. -/
theorem c2_initial_failure_fallback (net : Network) (fuel currentYear : Nat) :
    (fetchScholarData net fuel currentYear = Outcome.fallback renderErrorHtml ↔
      net.initial = FetchResult.networkError ∨
        (∃ body, net.initial = FetchResult.httpResponse false body) ∨
        net.initial = FetchResult.httpResponse true none) ∧
    (∃ pre post, renderErrorHtml = pre ++ (GOOGLE_SCHOLAR_URL ++ post)) := by
  constructor
  · rcases hinit : net.initial with _ | ⟨ok, body⟩
    · simp [fetchScholarData, fetchAllPapers, hinit]
    · rcases ok with _ | _
      · simp [fetchScholarData, fetchAllPapers, hinit]
      · rcases body with _ | page
        · simp [fetchScholarData, fetchAllPapers, hinit]
        · rcases hnext : page.next with _ | n
          · simp [fetchScholarData, fetchAllPapers, hinit, hnext]
          · by_cases hz : n = 0 <;>
              simp [fetchScholarData, fetchAllPapers, hinit, hnext, hz]
  · exact ⟨_, _, rfl⟩

/-- C3: a failing follow-up request contributes nothing instead of
failing the operation — pagination returns the records accumulated from
earlier pages; in the spec's scenario (page 1 two records plus cursor,
page 2 fails) the final set is exactly the two page-1 records and the
fallback is not shown. -/
theorem c3_pagination_partial_results :
    (∀ (net : Network) (fuel offset : Nat),
      (net.page offset = FetchResult.networkError ∨
        (∃ body, net.page offset = FetchResult.httpResponse false body) ∨
        net.page offset = FetchResult.httpResponse true none) →
      fetchRemainingPapers net fuel offset = []) ∧
    (∀ (net : Network) (fuel currentYear : Nat) (ps : List Paper) (c : Nat),
      c ≠ 0 →
      net.initial = FetchResult.httpResponse true (some ⟨some ps, some c⟩) →
      fetchAllPapers net fuel = some (ps ++ fetchRemainingPapers net fuel c) ∧
        ∀ html, fetchScholarData net fuel currentYear ≠ Outcome.fallback html) ∧
    (∀ fuel currentYear : Nat,
      fetchAllPapers pageFailNet fuel = some [paperA, paperB] ∧
        ∀ html, fetchScholarData pageFailNet fuel currentYear ≠ Outcome.fallback html) := by
  refine ⟨?_, ?_, ?_⟩
  · intro net fuel offset h
    cases fuel with
    | zero => rfl
    | succ fuel =>
      rcases h with h | ⟨body, h⟩ | h <;> simp [fetchRemainingPapers, h]
  · intro net fuel currentYear ps c hc hinit
    refine ⟨by simp [fetchAllPapers, hinit, hc], fun html => ?_⟩
    simp [fetchScholarData, fetchAllPapers, hinit, hc]
  · intro fuel currentYear
    have hrem : fetchRemainingPapers pageFailNet fuel 500 = [] := by
      cases fuel with
      | zero => rfl
      | succ fuel => simp [fetchRemainingPapers, pageFailNet]
    have hall : fetchAllPapers pageFailNet fuel = some [paperA, paperB] := by
      have h0 : fetchAllPapers pageFailNet fuel =
          some ([paperA, paperB] ++ fetchRemainingPapers pageFailNet fuel 500) := rfl
      rw [h0, hrem, List.append_nil]
    exact ⟨hall, fun html => by simp [fetchScholarData, hall]⟩

/-- Witness for C3: a network-failing follow-up request at offset 500
contributes no records. -/
theorem c3_pagination_partial_results_witness :
    fetchRemainingPapers pageFailNet 2 500 = [] :=
  c3_pagination_partial_results.1 pageFailNet 2 500 (Or.inl rfl)

/-- C8: when the fetch succeeds but no record survives the recency
filter, the container shows the single no-results placeholder, not a
year list and not the error fallback. -/
theorem c8_empty_filter_placeholder (net : Network) (fuel currentYear : Nat)
    (papers : List Paper)
    (h1 : fetchAllPapers net fuel = some papers)
    (h2 : recentFilter currentYear papers = []) :
    fetchScholarData net fuel currentYear =
      Outcome.view (RenderedView.placeholder noResultsHtml) ∧
    ∀ html, fetchScholarData net fuel currentYear ≠ Outcome.fallback html := by
  have heq : fetchScholarData net fuel currentYear =
      Outcome.view (RenderedView.placeholder noResultsHtml) := by
    simp [fetchScholarData, h1, h2]
    rfl
  exact ⟨heq, fun html h => by rw [heq] at h; cases h⟩

/-- Witness for C8: a single record from 1990 is filtered out in 2024
and the placeholder is rendered. -/
theorem c8_empty_filter_placeholder_witness :
    fetchScholarData staleNet 0 2024 =
      Outcome.view (RenderedView.placeholder noResultsHtml) ∧
    ∀ html, fetchScholarData staleNet 0 2024 ≠ Outcome.fallback html :=
  c8_empty_filter_placeholder staleNet 0 2024 [yearOnly 1990] rfl (by decide)

/-- C10: grouping a list that passed the recency filter never produces
an `Undated` bucket: every bucket key is a numeric year, because the
filter's truthiness test removes records whose year is absent or zero;
the `Undated` bucket is reachable only by grouping unfiltered input. -/
theorem c10_no_undated_after_filter :
    (∀ (currentYear : Nat) (papers : List Paper) (k : YearKey),
      k ∈ (groupByYear (sortPapers (recentFilter currentYear papers))).map Prod.fst →
        ∃ n, k = YearKey.year n) ∧
    (∀ (currentYear : Nat) (p : Paper),
      p.year = none ∨ p.year = some 0 → recentFilter currentYear [p] = []) ∧
    (groupByYear [undatedPaper]).map Prod.fst = [YearKey.undated] := by
  refine ⟨?_, ?_, rfl⟩
  · intro currentYear papers k h
    rcases groupGo_keys_sub (sortPapers (recentFilter currentYear papers)) []
        k h with h2 | ⟨p, hp, hk⟩
    · simp at h2
    · have hp2 : p ∈ recentFilter currentYear papers :=
        (List.perm_insertionSort paperLE (recentFilter currentYear papers)).subset hp
      have hpred := (List.mem_filter.mp hp2).2
      rcases hy : p.year with _ | y
      · rw [hy] at hpred
        simp [truthyNat] at hpred
      · rw [hy] at hpred
        simp only [truthyNat, Bool.and_eq_true, bne_iff_ne, ne_eq,
          decide_eq_true_eq] at hpred
        refine ⟨y, ?_⟩
        rw [← hk]
        simp [keyOf, hy, hpred.1]
  · intro currentYear p h
    rcases h with h | h <;> simp [recentFilter, truthyNat, h]

/-- Witness for C10: the single bucket of a kept 2023 record is the
numeric 2023 bucket, and an undated record is removed by the filter. -/
theorem c10_no_undated_after_filter_witness :
    (∃ n, YearKey.year 2023 = YearKey.year n) ∧
      recentFilter 2024 [undatedPaper] = [] :=
  ⟨c10_no_undated_after_filter.1 2024 [yearOnly 2023] (YearKey.year 2023) (by decide),
    c10_no_undated_after_filter.2.1 2024 undatedPaper (Or.inl rfl)⟩
